import Mathlib

/-!
Shallow embedding of the CalHacks12 voice-agent code
(`example/voiceAgent/agent.py`, `example/voiceAgent/robot_voice_agent.py`,
`example/voiceAgent/robot_tools.py`) and proofs about it.

External library behaviour (base64 codec, JSON serialization, the audio
device, the actuator SDK) is out of scope of the repository; payloads are
carried as opaque byte/text containers and the SDK is modelled as an
oracle supplying the integer status of each issued command.  Wall-clock
times (Python floats of seconds) are modelled as rationals.
-/

/-- Frame of 16-bit PCM bytes; contents are opaque to the agent code,
frames matter only by their position in the stream. -/
abbrev Frame := String

/-- Base64 decoding is done by the external `base64` library; modelled as
an opaque byte-preserving map on the payload container. -/
def b64decode (s : String) : Frame := s

/-- Base64 encoding, the inverse external map. -/
def b64encode (f : Frame) : String := f

/-! ### PlaybackBuffer: the `deque` used as `self.output_buffer` in agent.py.
Operations used by the code: `append` (push at the tail), `popleft`
(pop at the head), `clear`. -/

/-- Push a frame at the tail of the buffer (`deque.append`). -/
def deque_push (b : List Frame) (f : Frame) : List Frame := b ++ [f]

/-- Pop the head frame (`deque.popleft`), `none` when the buffer is empty. -/
def deque_popleft : List Frame → Option (Frame × List Frame)
  | [] => none
  | f :: r => some (f, r)

/-- Discard all pending frames (`deque.clear`). -/
def deque_clear (_ : List Frame) : List Frame := []

/-- Push a whole sequence of frames in order. -/
def deque_push_all (b : List Frame) (fs : List Frame) : List Frame :=
  fs.foldl deque_push b

/-- Popping decreases the length, justifying the recursion in `deque_drain`. -/
theorem deque_popleft_length {b r : List Frame} {f : Frame}
    (h : deque_popleft b = some (f, r)) : r.length < b.length := by
  cases b with
  | nil => simp [deque_popleft] at h
  | cons x xs =>
    simp only [deque_popleft, Option.some.injEq, Prod.mk.injEq] at h
    simp [← h.2]

/-- Repeatedly `popleft` until empty, collecting the popped frames in order. -/
def deque_drain (b : List Frame) : List Frame :=
  match h : deque_popleft b with
  | none => []
  | some (f, r) => f :: deque_drain r
termination_by b.length
decreasing_by exact deque_popleft_length h

/-! ### Messages on the wire (agent.py).
Inbound events as dispatched on by `handle_message`; outbound messages
sent on the websocket.  JSON (de)serialization is external; events carry
their already-extracted payloads. -/

/-- Arguments mapping of a tool call (JSON object, values kept opaque). -/
abbrev ArgMap := List (String × String)

/-- Result mapping returned by a tool handler (JSON object). -/
abbrev ResultMap := List (String × String)

/-- Outbound websocket messages produced by agent.py. -/
inductive OutMsg where
  /-- The `input_audio_buffer.append` message carrying one base64 chunk. -/
  | inputAudioAppend (audio : String)
  /-- The `conversation.item.create` message wrapping a
  `function_call_output` item: the ToolResult, correlated by `call_id`. -/
  | functionCallOutput (call_id : String) (output : ResultMap)
  /-- The `response.create` continuation message. -/
  | responseCreate
  deriving DecidableEq, Repr

/-- Inbound events as discriminated by `handle_message` in agent.py. -/
inductive InMsg where
  | transcriptDelta (text : String)
  | transcriptDone
  /-- The `response.audio.delta` event with its base64 `delta` payload. -/
  | audioDelta (delta : String)
  | responseCreated
  | responseDone
  | speechStarted
  | speechStopped
  | committed
  /-- The `response.function_call_arguments.done` event, with the JSON
  arguments already parsed into a mapping. -/
  | functionCallDone (call_id : String) (name : String) (arguments : ArgMap)
  | errorEvent (message : String)
  deriving Repr

/-- Python exceptions surfaced by the embedded code paths. -/
inductive PyErr where
  /-- The `KeyError` raised by `self.tools_registry[function_name]`. -/
  | keyError (key : String)
  /-- An exception raised by a tool handler itself. -/
  | raised (description : String)
  deriving DecidableEq, Repr

/-- Type of a registered tool handler: the Python callable may return a
result mapping or raise. -/
abbrev Handler := ArgMap → Except PyErr ResultMap

/-- The `min_speech_duration` constant of `VoiceAgent.__init__` (0.5 s). -/
def min_speech_duration : ℚ := 1 / 2

/-- The `silence_timeout` constant of `VoiceAgent.__init__` (10 s). -/
def silence_timeout : ℚ := 10

/-- State of a `VoiceAgent` (agent.py), with ghost fields `sent`, `played`
and `frames_read` recording the messages written to the websocket, the
frames written to the output device and the frames read from the
microphone. -/
structure AgentState where
  is_running : Bool
  is_speaking : Bool
  output_buffer : List Frame
  interrupt_playback : Bool
  playback_stopped : Bool
  last_speech_time : ℚ
  tools_registry : List (String × Handler)
  sent : List OutMsg
  played : List Frame
  frames_read : List Frame

/-- The `VoiceAgent.execute_function` coroutine: looks the name up in
`self.tools_registry` (a missing key raises `KeyError`), calls the handler
(which may itself raise), and on success sends the
`function_call_output` item for the same `call_id` followed by
`response.create`. -/
def execute_function (s : AgentState) (call_id : String)
    (function_name : String) (arguments : ArgMap) : Except PyErr AgentState :=
  match s.tools_registry.lookup function_name with
  | none => .error (.keyError function_name)
  | some func =>
    match func arguments with
    | .error e => .error e
    | .ok result =>
      .ok { s with sent := s.sent ++
              [.functionCallOutput call_id result, .responseCreate] }

/-- The `VoiceAgent.handle_message` coroutine, branching on the message
type; `t` is the value `time.time()` would return in the
`speech_stopped` branch. -/
def handle_message (s : AgentState) (t : ℚ) (m : InMsg) :
    Except PyErr AgentState :=
  match m with
  | .transcriptDelta _ => .ok s
  | .transcriptDone => .ok s
  | .audioDelta delta =>
    if delta ≠ "" then
      .ok { s with output_buffer := deque_push s.output_buffer (b64decode delta) }
    else .ok s
  | .responseCreated => .ok { s with is_speaking := true, playback_stopped := false }
  | .responseDone => .ok { s with is_speaking := false }
  | .speechStarted =>
    if s.is_speaking then
      .ok { s with interrupt_playback := true, is_speaking := false }
    else .ok s
  | .speechStopped =>
    let speech_duration := t - s.last_speech_time
    if speech_duration ≥ min_speech_duration then
      .ok { s with last_speech_time := t }
    else .ok s
  | .committed => .ok s
  | .functionCallDone call_id name arguments =>
    execute_function s call_id name arguments
  | .errorEvent _ => .ok { s with is_speaking := false }

/-- One iteration of the locked section of
`VoiceAgent.continuous_playback`: play the head frame unless the
interrupt flag is set; on interrupt, clear the buffer, reset the flag and
record that playback stopped. -/
def continuous_playback_step (s : AgentState) : AgentState :=
  match s.output_buffer, s.interrupt_playback with
  | f :: rest, false =>
    { s with output_buffer := rest, played := s.played ++ [f] }
  | _, true =>
    { s with output_buffer := deque_clear s.output_buffer,
             interrupt_playback := false, playback_stopped := true }
  | [], false => s

/-- One iteration of the `VoiceAgent.send_audio` loop: the microphone is
read unconditionally; the frame is base64-encoded and sent as an
`input_audio_buffer.append` message only when the agent is not
speaking. -/
def send_audio_iter (s : AgentState) (mic : Frame) : AgentState :=
  if !s.is_speaking then
    { s with frames_read := s.frames_read ++ [mic],
             sent := s.sent ++ [.inputAudioAppend (b64encode mic)] }
  else
    { s with frames_read := s.frames_read ++ [mic] }

/-! ### The receive loop of robot_voice_agent.py (`receive_audio`).
Each raw websocket message either decodes (`json.loads` succeeds) into an
event or raises a `DecodeError`; decode success resets the
consecutive-error counter, a decode failure increments it and the loop
breaks once the counter reaches `max_consecutive_errors`. -/

/-- Events of `RobotVoiceAgent.receive_audio` after a successful decode.
The `audio` payload of `response.audio.delta` is `none` when extracting
or decoding it raises (swallowed by the inner handler). -/
inductive RMsg where
  | audioDelta (audio : Option Frame)
  | responseDone
  | sessionCreated
  | sessionUpdated
  | speechStarted
  | speechStopped
  | errorEvent (code : String) (message : String)
  | other (msg_type : String)
  deriving Repr

/-- Raw inbound websocket message: either it decodes to an event or
`json.loads` raises a `DecodeError`. -/
inductive RawMsg where
  | ok (m : RMsg)
  | malformed
  deriving Repr

/-- The `max_consecutive_errors` constant of `receive_audio` (line 513). -/
def max_consecutive_errors : Nat := 5

/-- State of the `receive_audio` loop: its two counters, the playback
buffer it feeds, whether the loop has exited, and a ghost count of how
many times the consecutive-error threshold break fired. -/
structure RecvState where
  message_count : Nat
  consecutive_errors : Nat
  output_buffer : List Frame
  stopped : Bool
  threshold_breaks : Nat
  deriving Repr, DecidableEq

/-- State of `receive_audio` as the loop is entered. -/
def recv_init : RecvState :=
  { message_count := 0, consecutive_errors := 0, output_buffer := [],
    stopped := false, threshold_breaks := 0 }

/-- One iteration of the `async for` body of `receive_audio`: a decoded
message bumps `message_count`, resets `consecutive_errors` and is
processed by type (`response.audio.delta` appends to the playback
buffer, `response.done` breaks the loop); a `DecodeError` increments
`consecutive_errors` and breaks the loop when the counter reaches
`max_consecutive_errors`. -/
def receive_step (s : RecvState) (msg : RawMsg) : RecvState :=
  if s.stopped then s
  else
    match msg with
    | .malformed =>
      let c := s.consecutive_errors + 1
      if c ≥ max_consecutive_errors then
        { s with consecutive_errors := c, stopped := true,
                 threshold_breaks := s.threshold_breaks + 1 }
      else
        { s with consecutive_errors := c }
    | .ok m =>
      let s := { s with message_count := s.message_count + 1,
                        consecutive_errors := 0 }
      match m with
      | .audioDelta (some audio_data) =>
        { s with output_buffer := deque_push s.output_buffer audio_data }
      | .audioDelta none => s
      | .responseDone => { s with stopped := true }
      | _ => s

/-- The whole receive loop over a finite inbound message sequence. -/
def receive_loop (s : RecvState) (msgs : List RawMsg) : RecvState :=
  msgs.foldl receive_step s

/-! ### Cleanup (agent.py `VoiceAgent.cleanup`).
The held resources are modelled by presence flags (the Python attributes
are `None` until created and are never reset to `None` by `cleanup`),
and ghost counters record every release call issued to the audio
library / websocket. -/

/-- Resource-lifecycle view of a `VoiceAgent`, with ghost counters for
each release-side library call `cleanup` performs. -/
structure CleanupState where
  is_running : Bool
  output_buffer : List Frame
  /-- Whether `self.input_stream` is set (truthy): streams stay set after close. -/
  input_stream : Bool
  output_stream : Bool
  /-- Whether `self.audio` (the PyAudio instance) is set. -/
  audio : Bool
  /-- Whether `self.ws` is set. -/
  ws : Bool
  input_stream_stop_calls : Nat
  input_stream_close_calls : Nat
  output_stream_stop_calls : Nat
  output_stream_close_calls : Nat
  audio_terminate_calls : Nat
  ws_close_calls : Nat
  deriving Repr, DecidableEq

/-- The `VoiceAgent.cleanup` coroutine: stop the playback thread, clear
the buffer, and guardedly stop/close each stream, terminate PyAudio and
close the websocket.  None of the attributes is reset, so the guards
remain true on a later call. -/
def cleanup (s : CleanupState) : CleanupState :=
  let s := { s with is_running := false, output_buffer := deque_clear s.output_buffer }
  let s := if s.input_stream then
      { s with input_stream_stop_calls := s.input_stream_stop_calls + 1,
               input_stream_close_calls := s.input_stream_close_calls + 1 }
    else s
  let s := if s.output_stream then
      { s with output_stream_stop_calls := s.output_stream_stop_calls + 1,
               output_stream_close_calls := s.output_stream_close_calls + 1 }
    else s
  let s := if s.audio then
      { s with audio_terminate_calls := s.audio_terminate_calls + 1 }
    else s
  if s.ws then { s with ws_close_calls := s.ws_close_calls + 1 } else s

/-! ### robot_tools.py: tool handlers over the actuator SDK.
The SDK client is an external collaborator; it is modelled as an oracle
assigning an integer status to each issued command (0 = success).  Each
handler returns its Python result dict as a `ResultMap` together with
the list of commands it issued, in order. -/

/-- The `B1HandAction` values used by robot_tools.py. -/
inductive HandAction where
  | kHandOpen
  | kHandClose
  deriving DecidableEq, Repr

/-- The `B1HandIndex` values used by robot_tools.py. -/
inductive HandIndex where
  | kLeftHand
  | kRightHand
  deriving DecidableEq, Repr

/-- The `RobotMode` values used by `change_mode`. -/
inductive RobotMode where
  | kWalking
  | kDamping
  | kPrepare
  | kCustom
  deriving DecidableEq, Repr

/-- Commands issued to the `B1LocoClient`, with the arguments the code
passes. -/
inductive RobotCmd where
  | move (x y z : ℚ)
  | rotateHead (pitch yaw : ℚ)
  | waveHand (action : HandAction)
  | moveHandEndEffector (hand : HandIndex)
  | controlDexterousHand (angles : List Nat) (hand : HandIndex)
  | changeMode (mode : RobotMode)
  deriving DecidableEq, Repr

/-- Oracle for the actuator SDK: the integer status each command call
returns. -/
structure RobotClient where
  status : RobotCmd → Int

/-- The `base_speeds` dict of `move_robot`, read with `.get(direction, 0.0)`. -/
def base_speeds (direction : String) : ℚ :=
  if direction = "forward" then 4/5
  else if direction = "backward" then -(1/5)
  else if direction = "left" then 1/5
  else if direction = "right" then -(1/5)
  else 0

/-- The `speed_multipliers` dict, read with `.get(speed_modifier, 1.0)`. -/
def speed_multipliers (speed_modifier : String) : ℚ :=
  if speed_modifier = "slow" then 3/10
  else if speed_modifier = "slowly" then 3/10
  else if speed_modifier = "bit" then 2/5
  else if speed_modifier = "little" then 2/5
  else if speed_modifier = "normal" then 1
  else if speed_modifier = "fast" then 3/2
  else if speed_modifier = "quickly" then 3/2
  else if speed_modifier = "lot" then 3/2
  else if speed_modifier = "much" then 3/2
  else 1

/-- The `duration_multipliers` dict, read with `.get(duration_modifier, 1.0)`. -/
def duration_multipliers (duration_modifier : String) : ℚ :=
  if duration_modifier = "short" then 3/10
  else if duration_modifier = "briefly" then 3/10
  else if duration_modifier = "moment" then 1/2
  else if duration_modifier = "normal" then 1
  else if duration_modifier = "long" then 3
  else if duration_modifier = "long_time" then 3
  else if duration_modifier = "extended" then 3
  else if duration_modifier = "while" then 2
  else 1

/-- Python `str.lower()` modelled structurally on the character list. -/
def py_lower (s : String) : String := ⟨s.data.map Char.toLower⟩

/-- Arguments of `move_robot` as extracted from the JSON dict: each field
is `none` when the key is absent (`args.get` then supplies the default). -/
structure MoveArgs where
  direction : Option String
  distance : Option ℚ
  speed_modifier : Option String
  duration_modifier : Option String

/-- Direction dispatch of `move_robot` (robot_tools.py lines 55-76):
the `(x, y, z)` velocity for a recognized direction, `none` for an
invalid one (the early-return error branch). -/
def move_velocity (direction speed_modifier : String) : Option (ℚ × ℚ × ℚ) :=
  let base_speed := base_speeds direction
  let speed_multiplier := speed_multipliers speed_modifier
  if direction = "stop" then some (0, 0, 0)
  else if direction = "forward" then some (base_speed * speed_multiplier, 0, 0)
  else if direction = "backward" then some (base_speed * speed_multiplier, 0, 0)
  else if direction = "left" then some (0, base_speed * speed_multiplier, 0)
  else if direction = "right" then some (0, base_speed * speed_multiplier, 0)
  else none

/-- The `move_robot` handler: computes the velocity for the requested
direction, rejects an unknown direction with an error dict before any
SDK call, and otherwise issues `Move(x, y, z)` followed by
`Move(0, 0, 0)`, reporting `status` `"success"` exactly when the first
`Move` returned 0 (the status of the trailing stop `Move` is
discarded). -/
def move_robot (client : RobotClient) (args : MoveArgs) :
    ResultMap × List RobotCmd :=
  let direction := py_lower (args.direction.getD "forward")
  let distance := args.distance.getD 1
  let speed_modifier := py_lower (args.speed_modifier.getD "normal")
  let duration_modifier := py_lower (args.duration_modifier.getD "normal")
  let final_distance := distance * duration_multipliers duration_modifier
  match move_velocity direction speed_modifier with
  | none =>
    ([("error", "Invalid direction: " ++ direction),
      ("message", "Unknown direction: " ++ direction)], [])
  | some (x, y, z) =>
    let res := client.status (.move x y z)
    ([("direction", direction),
      ("speed_modifier", speed_modifier),
      ("duration_modifier", duration_modifier),
      ("actual_speed", toString (if x ≠ 0 then |x| else |y|)),
      ("final_duration", toString final_distance),
      ("status", if res = 0 then "success" else "failed"),
      ("message", "Robot moved " ++ direction ++ " " ++ speed_modifier ++
        " for " ++ toString final_distance ++ "s")],
     [.move x y z, .move 0 0 0])

/-- The `yaw` value assigned by the if/elif chain of `rotate_head`
(0 in every branch that does not set it). -/
def head_yaw (direction : String) : ℚ :=
  if direction = "left" then 157/200
  else if direction = "right" then -(157/200)
  else 0

/-- The `pitch` value assigned by the if/elif chain of `rotate_head`. -/
def head_pitch (direction : String) : ℚ :=
  if direction = "up" then -(3/10)
  else if direction = "down" then 1
  else 0

/-- The `rotate_head` handler; an unrecognized direction leaves yaw and
pitch at 0 and the SDK is still called. -/
def rotate_head (client : RobotClient) (direction_arg : Option String) :
    ResultMap × List RobotCmd :=
  let direction := py_lower (direction_arg.getD "center")
  let res := client.status (.rotateHead (head_pitch direction) (head_yaw direction))
  ([("direction", direction),
    ("status", if res = 0 then "success" else "failed"),
    ("message", "Robot head rotated " ++ direction)],
   [.rotateHead (head_pitch direction) (head_yaw direction)])

/-- The `celebration` handler: raises both hands, walks forward and
stops; the integer statuses of all four SDK calls are discarded and the
returned dict reports `"success"` unconditionally. -/
def celebration (client : RobotClient) : ResultMap × List RobotCmd :=
  let cmds : List RobotCmd :=
    [.moveHandEndEffector .kLeftHand,
     .moveHandEndEffector .kRightHand,
     .move (4/5) 0 0,
     .move 0 0 0]
  let _ := cmds.map client.status
  ([("status", "success"),
    ("message", "Celebration sequence complete!")], cmds)

/-- Finger angle tables of `hand_gesture`; an unknown gesture falls back
to the `paper` angles. -/
def gesture_angles (gesture : String) : List Nat :=
  if gesture = "rock" then [0, 0, 0, 0, 0, 0]
  else if gesture = "scissor" then [0, 0, 1000, 1000, 0, 0]
  else if gesture = "paper" then [1000, 1000, 1000, 1000, 1000, 1000]
  else if gesture = "ok" then [1000, 1000, 1000, 500, 400, 350]
  else [1000, 1000, 1000, 1000, 1000, 1000]

/-- The `hand_gesture` handler. -/
def hand_gesture (client : RobotClient) (gesture_arg : Option String) :
    ResultMap × List RobotCmd :=
  let gesture := py_lower (gesture_arg.getD "paper")
  let angles := gesture_angles gesture
  let res := client.status (.controlDexterousHand angles .kRightHand)
  ([("gesture", gesture),
    ("status", if res = 0 then "success" else "failed"),
    ("message", "Hand gesture " ++ gesture ++ " performed")],
   [.controlDexterousHand angles .kRightHand])

/-- Action dispatch of `wave_hand` (robot_tools.py lines 172-180). -/
def wave_action (action : String) : Option HandAction :=
  if action = "open" then some .kHandOpen
  else if action = "close" then some .kHandClose
  else none

/-- The `wave_hand` handler: rejects an action other than `open` or
`close` with an error dict before any SDK call; otherwise issues
`WaveHand` and reports `status` from its integer result. -/
def wave_hand (client : RobotClient) (action_arg : Option String) :
    ResultMap × List RobotCmd :=
  let action := py_lower (action_arg.getD "open")
  match wave_action action with
  | none =>
    ([("error", "Invalid action. Must be 'open' or 'close'"),
      ("message", "Unknown wave action: " ++ action)], [])
  | some a =>
    let res := client.status (.waveHand a)
    ([("action", action),
      ("status", if res = 0 then "success" else "failed"),
      ("message", "Robot waved hand (" ++ action ++ ")")],
     [.waveHand a])

/-- The `mode_map` dict of `change_mode`, read with `.get(mode, kWalking)`. -/
def mode_map (mode : String) : RobotMode :=
  if mode = "walking" then .kWalking
  else if mode = "damping" then .kDamping
  else if mode = "prepare" then .kPrepare
  else if mode = "custom" then .kCustom
  else .kWalking

/-- The `change_mode` handler. -/
def change_mode (client : RobotClient) (mode_arg : Option String) :
    ResultMap × List RobotCmd :=
  let mode := py_lower (mode_arg.getD "walking")
  let robot_mode := mode_map mode
  let res := client.status (.changeMode robot_mode)
  ([("mode", mode),
    ("status", if res = 0 then "success" else "failed"),
    ("message", "Robot mode changed to " ++ mode)],
   [.changeMode robot_mode])

/-! ### Theorems -/

/-- Pushing a sequence of frames appends it at the tail. -/
theorem deque_push_all_eq (fs : List Frame) :
    ∀ b, deque_push_all b fs = b ++ fs := by
  induction fs with
  | nil => intro b; simp [deque_push_all]
  | cons f fs ih =>
    intro b
    show deque_push_all (deque_push b f) fs = b ++ f :: fs
    rw [ih, deque_push]
    simp

/-- Draining by repeated `popleft` recovers the buffered frames in order. -/
theorem deque_drain_eq (b : List Frame) : deque_drain b = b := by
  induction b with
  | nil => rw [deque_drain]; rfl
  | cons f r ih =>
    rw [deque_drain]
    exact congrArg (f :: ·) ih

/-- C6: for every sequence of frames pushed into the playback buffer,
repeated `popleft` returns them in exactly push order (FIFO); after
`clear` the buffer is empty, an immediate pop returns nothing, and pops
after further pushes return only the post-clear frames, never a frame
pushed before the clear. -/
theorem c6_playback_fifo_and_clear (fs gs b : List Frame) :
    deque_drain (deque_push_all [] fs) = fs ∧
    deque_clear b = [] ∧
    deque_popleft (deque_clear b) = none ∧
    deque_drain (deque_push_all (deque_clear b) gs) = gs := by
  refine ⟨?_, rfl, rfl, ?_⟩ <;>
    simp [deque_push_all_eq, deque_drain_eq, deque_clear]

/-- C3: handling a `speech_started` event while the agent is speaking
moves the agent to the user-speaking state (`is_speaking` false,
interrupt flag set) without raising; the playback step that completes the
interrupt transition leaves the playback buffer empty and plays no frame,
so no pre-interrupt frame is ever written to the output device
afterwards. -/
theorem c3_interrupt_transition (s : AgentState) (t : ℚ)
    (h : s.is_speaking = true) :
    ∃ s1, handle_message s t .speechStarted = Except.ok s1 ∧
      s1.is_speaking = false ∧
      s1.interrupt_playback = true ∧
      s1.output_buffer = s.output_buffer ∧
      (continuous_playback_step s1).output_buffer = [] ∧
      (continuous_playback_step s1).interrupt_playback = false ∧
      (continuous_playback_step s1).played = s.played := by
  refine ⟨{ s with interrupt_playback := true, is_speaking := false },
    by simp [handle_message, h], rfl, rfl, rfl, ?_, ?_, ?_⟩ <;>
    cases hb : s.output_buffer <;>
      simp [continuous_playback_step, deque_clear, hb]

/-- Concrete agent state used to instantiate the interrupt-transition
theorem: the agent is speaking with two frames pending in the playback
buffer. -/
def agent0 : AgentState :=
  { is_running := true, is_speaking := true,
    output_buffer := ["frameA", "frameB"],
    interrupt_playback := false, playback_stopped := false,
    last_speech_time := 0, tools_registry := [],
    sent := [], played := [], frames_read := [] }

/-- Witness instantiating the interrupt-transition theorem on `agent0`. -/
theorem c3_interrupt_transition_witness :
    agent0.is_speaking = true ∧
    ∃ s1, handle_message agent0 7 .speechStarted = Except.ok s1 ∧
      s1.is_speaking = false ∧
      s1.interrupt_playback = true ∧
      s1.output_buffer = agent0.output_buffer ∧
      (continuous_playback_step s1).output_buffer = [] ∧
      (continuous_playback_step s1).interrupt_playback = false ∧
      (continuous_playback_step s1).played = agent0.played :=
  ⟨rfl, c3_interrupt_transition agent0 7 rfl⟩

/-- Concrete agent state for the minimum-duration filter: freshly
started (`last_speech_time = 0`), not speaking. -/
def agent4 : AgentState :=
  { is_running := true, is_speaking := false, output_buffer := [],
    interrupt_playback := false, playback_stopped := false,
    last_speech_time := 0, tools_registry := [],
    sent := [], played := [], frames_read := [] }

/-- C4: the code does not implement the claimed filter.  A user speech
starting at t = 100 s and stopping at t = 100.3 s lasts 0.3 s, below
`min_speech_duration` = 0.5 s, yet the `speech_started` handler records
no start timestamp, and the `speech_stopped` handler measures
`time.time() - last_speech_time` (time since the previous committed
turn, here 0), classifies the event as long enough and performs the
committed-turn action of updating `last_speech_time`. -/
theorem c4_short_speech_still_processed :
    handle_message agent4 100 .speechStarted = Except.ok agent4 ∧
    handle_message agent4 (1003/10) .speechStopped =
      Except.ok { agent4 with last_speech_time := 1003/10 } ∧
    (1003/10 : ℚ) - 100 < min_speech_duration := by
  refine ⟨rfl, ?_, by norm_num [min_speech_duration]⟩
  have hge : (1003/10 : ℚ) - agent4.last_speech_time ≥ min_speech_duration := by
    norm_num [agent4, min_speech_duration]
  simp [handle_message, hge]

/-- C8: one iteration of the microphone loop always reads exactly one
frame from the input device; the frame is transmitted as an
`input_audio_buffer.append` message exactly when the agent is not
speaking. -/
theorem c8_send_audio_suppression (s : AgentState) (mic : Frame) :
    (send_audio_iter s mic).frames_read = s.frames_read ++ [mic] ∧
    (send_audio_iter s mic).sent = s.sent ++
      (if s.is_speaking then []
       else [OutMsg.inputAudioAppend (b64encode mic)]) := by
  by_cases h : s.is_speaking <;> simp [send_audio_iter, h]

/-- Concrete registry with one well-behaved tool, for dispatch theorems. -/
def handler_time : Handler := fun _ => .ok [("message", "12:00 PM")]

/-- Agent holding only `handler_time` under the name `get_current_time`. -/
def agent1 : AgentState :=
  { is_running := true, is_speaking := false, output_buffer := [],
    interrupt_playback := false, playback_stopped := false,
    last_speech_time := 0,
    tools_registry := [("get_current_time", handler_time)],
    sent := [], played := [], frames_read := [] }

/-- C1 fails on the code: dispatching a ToolCall whose name is not
registered raises `KeyError` (the dict subscript has no fallback); no
success=false ToolResult is produced. -/
theorem c1_counterexample :
    execute_function agent1 "call_1" "unknown_tool" [] =
      Except.error (PyErr.keyError "unknown_tool") ∧
    (execute_function agent1 "call_1" "unknown_tool" []).isOk = false := by
  refine ⟨?_, ?_⟩ <;> rfl

/-- C1 amended: for every ToolCall whose name is not a key of the tool
registry, `execute_function` raises `KeyError` naming the missing tool
and emits nothing; it does not return a success=false ToolResult. -/
theorem c1_unregistered_name_raises (s : AgentState)
    (call_id function_name : String) (arguments : ArgMap)
    (h : s.tools_registry.lookup function_name = none) :
    execute_function s call_id function_name arguments =
      Except.error (PyErr.keyError function_name) := by
  simp [execute_function, h]

/-- Witness instantiating the unregistered-name theorem on `agent1`. -/
theorem c1_unregistered_name_raises_witness :
    agent1.tools_registry.lookup "unknown_tool" = none ∧
    execute_function agent1 "call_1b" "unknown_tool" [] =
      Except.error (PyErr.keyError "unknown_tool") :=
  ⟨rfl, c1_unregistered_name_raises agent1 "call_1b" "unknown_tool" [] rfl⟩

/-- Concrete registry whose single handler raises, for the dispatch
failure theorems. -/
def handler_boom : Handler := fun _ => .error (.raised "handler blew up")

/-- Agent holding only the raising handler `handler_boom`. -/
def agent2 : AgentState :=
  { is_running := true, is_speaking := false, output_buffer := [],
    interrupt_playback := false, playback_stopped := false,
    last_speech_time := 0,
    tools_registry := [("boom_tool", handler_boom)],
    sent := [], played := [], frames_read := [] }

/-- C2 fails on the code: when the registered handler raises, the
exception propagates out of `execute_function` and no ToolResult is
emitted for the call, instead of a success=false result. -/
theorem c2_counterexample :
    execute_function agent2 "call_2" "boom_tool" [] =
      Except.error (PyErr.raised "handler blew up") ∧
    (execute_function agent2 "call_2" "boom_tool" []).isOk = false := by
  refine ⟨?_, ?_⟩ <;> rfl

/-- Boolean test for a ToolResult message referencing a given callId. -/
def is_tool_result_for (cid : String) : OutMsg → Bool
  | .functionCallOutput c _ => c == cid
  | _ => false

/-- C2 amended: when the named handler is registered and returns
normally, exactly one `function_call_output` ToolResult referencing the
same callId is sent (followed by `response.create`); when the handler
raises, the exception propagates and no ToolResult is emitted. -/
theorem c2_dispatch_emission (s : AgentState) (call_id fname : String)
    (args : ArgMap) (f : Handler)
    (hf : s.tools_registry.lookup fname = some f) :
    (∀ r, f args = .ok r →
      ∃ s1, execute_function s call_id fname args = Except.ok s1 ∧
        s1.sent = s.sent ++
          [OutMsg.functionCallOutput call_id r, OutMsg.responseCreate] ∧
        s1.sent.countP (is_tool_result_for call_id) =
          s.sent.countP (is_tool_result_for call_id) + 1) ∧
    (∀ e, f args = .error e →
      execute_function s call_id fname args = Except.error e) := by
  constructor
  · intro r hr
    refine ⟨{ s with sent := s.sent ++
        [OutMsg.functionCallOutput call_id r, OutMsg.responseCreate] },
      by simp [execute_function, hf, hr], rfl, ?_⟩
    simp [List.countP_append, is_tool_result_for, List.countP_cons]
  · intro e he
    simp [execute_function, hf, he]

/-- Witness instantiating the dispatch-emission theorem on `agent1`
with its registered time tool. -/
theorem c2_dispatch_emission_witness :
    agent1.tools_registry.lookup "get_current_time" = some handler_time ∧
    handler_time [] = Except.ok [("message", "12:00 PM")] ∧
    ∃ s1, execute_function agent1 "call_2b" "get_current_time" [] =
        Except.ok s1 ∧
      s1.sent = agent1.sent ++
        [OutMsg.functionCallOutput "call_2b" [("message", "12:00 PM")],
         OutMsg.responseCreate] ∧
      s1.sent.countP (is_tool_result_for "call_2b") =
        agent1.sent.countP (is_tool_result_for "call_2b") + 1 :=
  ⟨rfl, rfl,
    (c2_dispatch_emission agent1 "call_2b" "get_current_time" []
      handler_time rfl).1 [("message", "12:00 PM")] rfl⟩

/-- C5 fails on the code: the fatal threshold in `receive_audio` is
`max_consecutive_errors = 5`, not 10; five consecutive `DecodeError`s
already terminate the loop, well before a 10th error. -/
theorem c5_counterexample :
    max_consecutive_errors = 5 ∧
    (receive_loop recv_init (List.replicate 5 .malformed)).stopped = true ∧
    (receive_loop recv_init (List.replicate 5 .malformed)).threshold_breaks
      = 1 := by
  refine ⟨rfl, ?_, ?_⟩ <;> rfl

/-- C5 amended: a single malformed message never terminates the receive
loop and every successfully processed message resets the
consecutive-error counter to zero, but the fatal threshold is 5: four
consecutive `DecodeError`s leave the loop running, the 5th stops it, and
the threshold break fires exactly once even across 11 consecutive
`DecodeError`s. -/
theorem c5_decode_error_policy :
    (∀ s : RecvState, s.stopped = false → s.consecutive_errors = 0 →
      (receive_step s .malformed).stopped = false) ∧
    (∀ (s : RecvState) (m : RMsg), s.stopped = false →
      (receive_step s (.ok m)).consecutive_errors = 0) ∧
    (receive_loop recv_init (List.replicate 4 .malformed)).stopped = false ∧
    (receive_loop recv_init (List.replicate 5 .malformed)).stopped = true ∧
    (receive_loop recv_init (List.replicate 11 .malformed)).threshold_breaks
      = 1 := by
  refine ⟨?_, ?_, rfl, rfl, rfl⟩
  · intro s hs hc
    simp [receive_step, hs, hc, max_consecutive_errors]
  · intro s m hs
    cases m <;> simp [receive_step, hs] <;>
      rename_i payload <;> cases payload <;> simp

/-- Witness instantiating the decode-error-policy theorem at the loop's
initial state. -/
theorem c5_decode_error_policy_witness :
    recv_init.stopped = false ∧ recv_init.consecutive_errors = 0 ∧
    (receive_step recv_init .malformed).stopped = false ∧
    (receive_step recv_init (.ok .responseDone)).consecutive_errors = 0 :=
  ⟨rfl, rfl, c5_decode_error_policy.1 recv_init rfl rfl,
    c5_decode_error_policy.2.1 recv_init .responseDone rfl⟩

/-- Concrete resource state of an agent whose streams, PyAudio instance
and websocket are all live and never yet released. -/
def agent7 : CleanupState :=
  { is_running := true, output_buffer := ["pending"],
    input_stream := true, output_stream := true, audio := true, ws := true,
    input_stream_stop_calls := 0, input_stream_close_calls := 0,
    output_stream_stop_calls := 0, output_stream_close_calls := 0,
    audio_terminate_calls := 0, ws_close_calls := 0 }

/-- C7 fails on the code: `cleanup` never resets the stream, PyAudio or
websocket attributes, so a second call re-enters every guarded branch
and releases each resource a second time. -/
theorem c7_counterexample :
    (cleanup (cleanup agent7)).input_stream_close_calls = 2 ∧
    (cleanup (cleanup agent7)).output_stream_close_calls = 2 ∧
    (cleanup (cleanup agent7)).audio_terminate_calls = 2 ∧
    (cleanup (cleanup agent7)).ws_close_calls = 2 := by
  refine ⟨?_, ?_, ?_, ?_⟩ <;> rfl

/-- C7 amended: `cleanup` is not idempotent.  Because the attributes
stay set, a second `cleanup` on an already-cleaned agent repeats
`stop_stream`/`close` on both audio streams, `terminate` on PyAudio and
`close` on the websocket, releasing every held resource twice; only the
running-flag reset and the buffer clear are idempotent. -/
theorem c7_second_cleanup_rereleases (s : CleanupState)
    (hi : s.input_stream = true) (ho : s.output_stream = true)
    (ha : s.audio = true) (hw : s.ws = true) :
    (cleanup s).is_running = false ∧
    (cleanup s).output_buffer = [] ∧
    (cleanup s).input_stream = true ∧
    (cleanup (cleanup s)).is_running = false ∧
    (cleanup (cleanup s)).output_buffer = [] ∧
    (cleanup (cleanup s)).input_stream_stop_calls
      = s.input_stream_stop_calls + 2 ∧
    (cleanup (cleanup s)).input_stream_close_calls
      = s.input_stream_close_calls + 2 ∧
    (cleanup (cleanup s)).output_stream_stop_calls
      = s.output_stream_stop_calls + 2 ∧
    (cleanup (cleanup s)).output_stream_close_calls
      = s.output_stream_close_calls + 2 ∧
    (cleanup (cleanup s)).audio_terminate_calls
      = s.audio_terminate_calls + 2 ∧
    (cleanup (cleanup s)).ws_close_calls = s.ws_close_calls + 2 := by
  simp [cleanup, hi, ho, ha, hw, deque_clear]

/-- Witness instantiating the re-release theorem on `agent7`. -/
theorem c7_second_cleanup_rereleases_witness :
    agent7.input_stream = true ∧ agent7.output_stream = true ∧
    agent7.audio = true ∧ agent7.ws = true ∧
    ((cleanup agent7).is_running = false ∧
     (cleanup agent7).output_buffer = [] ∧
     (cleanup agent7).input_stream = true ∧
     (cleanup (cleanup agent7)).is_running = false ∧
     (cleanup (cleanup agent7)).output_buffer = [] ∧
     (cleanup (cleanup agent7)).input_stream_stop_calls
       = agent7.input_stream_stop_calls + 2 ∧
     (cleanup (cleanup agent7)).input_stream_close_calls
       = agent7.input_stream_close_calls + 2 ∧
     (cleanup (cleanup agent7)).output_stream_stop_calls
       = agent7.output_stream_stop_calls + 2 ∧
     (cleanup (cleanup agent7)).output_stream_close_calls
       = agent7.output_stream_close_calls + 2 ∧
     (cleanup (cleanup agent7)).audio_terminate_calls
       = agent7.audio_terminate_calls + 2 ∧
     (cleanup (cleanup agent7)).ws_close_calls
       = agent7.ws_close_calls + 2) :=
  ⟨rfl, rfl, rfl, rfl,
    c7_second_cleanup_rereleases agent7 rfl rfl rfl rfl⟩

/-- SDK oracle returning a non-zero (failure) status for every command. -/
def failing_client : RobotClient := { status := fun _ => 1 }

/-- C9 fails on the code for `celebration`: it issues four actuator
commands, discards all their integer statuses, and reports
`status = "success"` even when the SDK signals failure (status 1) on
every call. -/
theorem c9_counterexample :
    (celebration failing_client).2 =
      [RobotCmd.moveHandEndEffector .kLeftHand,
       RobotCmd.moveHandEndEffector .kRightHand,
       RobotCmd.move (4/5) 0 0, RobotCmd.move 0 0 0] ∧
    failing_client.status (RobotCmd.moveHandEndEffector .kLeftHand) ≠ 0 ∧
    (celebration failing_client).1.lookup "status" = some "success" :=
  ⟨rfl, by decide, rfl⟩

/-- C9 amended: `move_robot`, `rotate_head`, `hand_gesture`, `wave_hand`
and `change_mode` all map a non-zero status of their first SDK call to a
result with `status = "failed"` without raising (`move_robot` discards
the status of its trailing stop `Move`); `celebration` discards every
status and reports `status = "success"` unconditionally. -/
theorem c9_nonzero_status_failed :
    (∀ (client : RobotClient) (args : MoveArgs) (c : RobotCmd)
        (rest : List RobotCmd),
      (move_robot client args).2 = c :: rest → client.status c ≠ 0 →
      (move_robot client args).1.lookup "status" = some "failed") ∧
    (∀ (client : RobotClient) (d : Option String) (c : RobotCmd)
        (rest : List RobotCmd),
      (rotate_head client d).2 = c :: rest → client.status c ≠ 0 →
      (rotate_head client d).1.lookup "status" = some "failed") ∧
    (∀ (client : RobotClient) (g : Option String) (c : RobotCmd)
        (rest : List RobotCmd),
      (hand_gesture client g).2 = c :: rest → client.status c ≠ 0 →
      (hand_gesture client g).1.lookup "status" = some "failed") ∧
    (∀ (client : RobotClient) (a : Option String) (c : RobotCmd)
        (rest : List RobotCmd),
      (wave_hand client a).2 = c :: rest → client.status c ≠ 0 →
      (wave_hand client a).1.lookup "status" = some "failed") ∧
    (∀ (client : RobotClient) (m : Option String) (c : RobotCmd)
        (rest : List RobotCmd),
      (change_mode client m).2 = c :: rest → client.status c ≠ 0 →
      (change_mode client m).1.lookup "status" = some "failed") ∧
    (∀ client : RobotClient,
      (celebration client).1.lookup "status" = some "success") := by
  refine ⟨?_, ?_, ?_, ?_, ?_, ?_⟩
  · intro client args c rest hc hne
    rcases hv : move_velocity (py_lower (args.direction.getD "forward"))
        (py_lower (args.speed_modifier.getD "normal")) with _ | ⟨x, y, z⟩
    · simp [move_robot, hv] at hc
    · simp only [move_robot, hv] at hc ⊢
      simp only [List.cons.injEq] at hc
      rw [← hc.1] at hne
      simp [List.lookup, hne]
  · intro client d c rest hc hne
    simp only [rotate_head, List.cons.injEq] at hc
    rw [← hc.1] at hne
    simp [rotate_head, List.lookup, hne]
  · intro client g c rest hc hne
    simp only [hand_gesture, List.cons.injEq] at hc
    rw [← hc.1] at hne
    simp [hand_gesture, List.lookup, hne]
  · intro client a c rest hc hne
    rcases hv : wave_action (py_lower (a.getD "open")) with _ | act
    · simp [wave_hand, hv] at hc
    · simp only [wave_hand, hv] at hc ⊢
      simp only [List.cons.injEq] at hc
      rw [← hc.1] at hne
      simp [List.lookup, hne]
  · intro client m c rest hc hne
    simp only [change_mode, List.cons.injEq] at hc
    rw [← hc.1] at hne
    simp [change_mode, List.lookup, hne]
  · intro client
    rfl

/-- Concrete `move_robot` arguments requesting a stop. -/
def margs9 : MoveArgs :=
  { direction := some "stop", distance := none,
    speed_modifier := none, duration_modifier := none }

/-- Witness instantiating the non-zero-status theorem on a `move_robot`
stop call and on `celebration`, against the always-failing SDK oracle. -/
theorem c9_nonzero_status_failed_witness :
    (move_robot failing_client margs9).2 =
      RobotCmd.move 0 0 0 :: [RobotCmd.move 0 0 0] ∧
    failing_client.status (RobotCmd.move 0 0 0) ≠ 0 ∧
    (move_robot failing_client margs9).1.lookup "status" = some "failed" ∧
    (celebration failing_client).1.lookup "status" = some "success" :=
  ⟨rfl, by decide,
    c9_nonzero_status_failed.1 failing_client margs9 (RobotCmd.move 0 0 0)
      [RobotCmd.move 0 0 0] rfl (by decide),
    c9_nonzero_status_failed.2.2.2.2.2 failing_client⟩

/-- C10: an argument mapping whose direction (after defaulting and
lowercasing) is not one of forward, backward, left, right or stop makes
`move_robot` return an error mapping and issue no SDK command; likewise
`wave_hand` with an action other than open or close returns an error
mapping and issues no command, leaving the robot state untouched. -/
theorem c10_invalid_args_issue_no_commands (client : RobotClient)
    (args : MoveArgs) (action_arg : Option String)
    (hd : py_lower (args.direction.getD "forward") ∉
      (["forward", "backward", "left", "right", "stop"] : List String))
    (ha : py_lower (action_arg.getD "open") ∉
      (["open", "close"] : List String)) :
    (move_robot client args).2 = [] ∧
    (move_robot client args).1.lookup "error" =
      some ("Invalid direction: " ++ py_lower (args.direction.getD "forward")) ∧
    (wave_hand client action_arg).2 = [] ∧
    (wave_hand client action_arg).1.lookup "error" =
      some "Invalid action. Must be 'open' or 'close'" := by
  simp only [List.mem_cons, List.not_mem_nil, or_false, not_or] at hd ha
  have hv : move_velocity (py_lower (args.direction.getD "forward"))
      (py_lower (args.speed_modifier.getD "normal")) = none := by
    simp [move_velocity, hd.1, hd.2.1, hd.2.2.1, hd.2.2.2.1, hd.2.2.2.2]
  have hw : wave_action (py_lower (action_arg.getD "open")) = none := by
    simp [wave_action, ha.1, ha.2]
  refine ⟨?_, ?_, ?_, ?_⟩ <;> simp [move_robot, wave_hand, hv, hw, List.lookup]

/-- Concrete `move_robot` arguments with an unrecognized direction. -/
def margs10 : MoveArgs :=
  { direction := some "spin", distance := none,
    speed_modifier := none, duration_modifier := none }

/-- Witness instantiating the invalid-argument theorem on the direction
`spin` and the wave action `wiggle`. -/
theorem c10_invalid_args_issue_no_commands_witness :
    py_lower (margs10.direction.getD "forward") ∉
      (["forward", "backward", "left", "right", "stop"] : List String) ∧
    py_lower ((some "wiggle").getD "open") ∉
      (["open", "close"] : List String) ∧
    ((move_robot failing_client margs10).2 = [] ∧
     (move_robot failing_client margs10).1.lookup "error" =
       some ("Invalid direction: " ++
         py_lower (margs10.direction.getD "forward")) ∧
     (wave_hand failing_client (some "wiggle")).2 = [] ∧
     (wave_hand failing_client (some "wiggle")).1.lookup "error" =
       some "Invalid action. Must be 'open' or 'close'") :=
  ⟨by decide, by decide,
    c10_invalid_args_issue_no_commands failing_client margs10 (some "wiggle")
      (by decide) (by decide)⟩
